import Mathlib

/-!
Verification of the TOS Big Data API server (FastAPI + SQL Server facade).

The development shallowly embeds the authentication module (`auth.py`), the
row conversion of the query-execution collaborator (`database.py`), and the
query-building / row-mapping logic of the resource handlers (`main.py`).
Machine integers are modelled as `Int`/`Nat`; Python `Optional` values as
`Option`; Python exceptions as `Except`; timestamps as integer instants.

Third-party library calls (`passlib` bcrypt verification, `python-jose`
`jwt.encode`/`jwt.decode`) are not part of the repository; bcrypt
verification is kept as an abstract boolean-valued parameter, and the jose
encode/decode pair is modelled explicitly (see `jwtDecode`).
-/

namespace BigDataAPI

/-! ## auth.py: users and password verification -/

/-- The legacy sentinel credential stored for the `abc` account
(`auth.py` line 43 / line 63). -/
def sentinelHash : String := "6504E4EF9274BDE48162B6F2BE0FDF0"

/-- `auth.py` `SECRET_KEY` (environment default). -/
def SECRET_KEY : String := "ngheTinhPort2024@BigDataAPI#SecretKey!ChangeMeInProduction"

/-- `auth.py` `ACCESS_TOKEN_EXPIRE_HOURS` (environment default `"8"`). -/
def ACCESS_TOKEN_EXPIRE_HOURS : Int := 8

/-- `auth.py` `class User`. -/
structure User where
  username : String
  password_hash : String
  full_name : Option String
  disabled : Bool
deriving DecidableEq

/-- The `"abc"` entry of `USERS_DB` (`auth.py` lines 41-46). -/
def abcUser : User :=
  { username := "abc", password_hash := sentinelHash
    full_name := some "Admin User", disabled := false }

/-- The `"admin"` entry of `USERS_DB` (`auth.py` lines 47-52). -/
def adminUser : User :=
  { username := "admin", password_hash := "admin123"
    full_name := some "System Admin", disabled := false }

/-- `auth.py` `get_user`: dictionary lookup in the fixed `USERS_DB`. -/
def get_user (username : String) : Option User :=
  if username = "abc" then some abcUser
  else if username = "admin" then some adminUser
  else none

/-- `auth.py` `verify_password`.  The bcrypt comparison performed by
`pwd_context.verify` lives in the third-party `passlib` library and is kept
abstract as the boolean-valued parameter `bc`. -/
def verify_password (bc : String → String → Bool)
    (plain_password hashed_password : String) : Bool :=
  if hashed_password = sentinelHash then plain_password == hashed_password
  else bc plain_password hashed_password

/-- `auth.py` `authenticate_user`. -/
def authenticate_user (bc : String → String → Bool)
    (username password : String) : Option User :=
  match get_user username with
  | none => none
  | some user =>
    if verify_password bc password user.password_hash then some user else none

/-- `main.py` `login` outcome: either a 401 detail `(Code, Message)` or a
success `(Code, token-subject)` pair; the token itself is issued by
`create_access_token` (modelled below). -/
def loginOutcome (bc : String → String → Bool)
    (username password : String) : Except (String × String) (String × String) :=
  match authenticate_user bc username password with
  | none => .error ("0", "Tên đăng nhập hoặc mật khẩu không đúng")
  | some user => .ok ("1", user.username)

/-- Claim C1: `authenticate_user` succeeds exactly when the username is
registered, the registered user is not disabled, and the password check
passes; it fails (returns no user) whenever the username is absent, the
user is disabled, or the password check fails.  (The registry `USERS_DB`
is fixed in the source and contains no disabled user.) -/
theorem authenticate_user_success_iff (bc : String → String → Bool)
    (u p : String) :
    (∃ usr, authenticate_user bc u p = some usr) ↔
    (∃ usr, get_user u = some usr ∧ usr.disabled = false ∧
      verify_password bc p usr.password_hash = true) := by
  by_cases h1 : u = "abc"
  · subst h1
    simp only [authenticate_user, get_user, if_pos rfl]
    constructor
    · rintro ⟨usr, husr⟩
      refine ⟨abcUser, rfl, rfl, ?_⟩
      by_cases hv : verify_password bc p abcUser.password_hash
      · exact hv
      · simp [hv] at husr
    · rintro ⟨usr, husr, _, hv⟩
      obtain rfl : abcUser = usr := by injection husr
      exact ⟨abcUser, by simp [hv]⟩
  · by_cases h2 : u = "admin"
    · subst h2
      simp only [authenticate_user, get_user, if_neg h1, if_pos rfl]
      constructor
      · rintro ⟨usr, husr⟩
        refine ⟨adminUser, rfl, rfl, ?_⟩
        by_cases hv : verify_password bc p adminUser.password_hash
        · exact hv
        · simp [hv] at husr
      · rintro ⟨usr, husr, _, hv⟩
        obtain rfl : adminUser = usr := by injection husr
        exact ⟨adminUser, by simp [hv]⟩
    · simp [authenticate_user, get_user, h1, h2]

/-- Claim C2: `verify_password` uses exactly two strategies: string equality
when the stored credential is the legacy sentinel hash, and the bcrypt
comparison otherwise; and login as `"abc"` with the sentinel value as the
password succeeds with code `"1"`. -/
theorem verify_password_two_strategies (bc : String → String → Bool)
    (plain hashed : String) :
    (hashed = sentinelHash →
      (verify_password bc plain hashed = true ↔ plain = hashed)) ∧
    (hashed ≠ sentinelHash →
      verify_password bc plain hashed = bc plain hashed) ∧
    authenticate_user bc "abc" sentinelHash = some abcUser ∧
    loginOutcome bc "abc" sentinelHash = .ok ("1", "abc") := by
  refine ⟨?_, ?_, ?_, ?_⟩
  · intro h
    subst h
    simp [verify_password]
  · intro h
    simp [verify_password, h]
  · simp [authenticate_user, get_user, verify_password, abcUser]
  · simp [loginOutcome, authenticate_user, get_user, verify_password, abcUser]

/-- Witness for C2: both strategies exercised at concrete inputs. -/
theorem verify_password_two_strategies_witness :
    (verify_password (fun _ _ => false) sentinelHash sentinelHash = true ↔
      sentinelHash = sentinelHash) ∧
    verify_password (fun _ _ => true) "pw" "other" = true := by
  refine ⟨(verify_password_two_strategies (fun _ _ => false) sentinelHash sentinelHash).1 rfl, ?_⟩
  exact (verify_password_two_strategies (fun _ _ => true) "pw" "other").2.1 (by decide)

/-! ## auth.py: JWT tokens

Times are integer POSIX instants; a `timedelta` is an integer number of
seconds.  A token is modelled as the record of what `jwt.encode` signed:
the `sub` claim, the `exp` claim, the signing secret, and a well-formedness
flag standing for an intact (non-garbled) payload. -/

/-- A signed JWT as produced by `jwt.encode` in `create_access_token`:
claims plus the secret used for the signature.  `wellFormed = false`
stands for a syntactically garbled token. -/
structure PyToken where
  sub : Option String
  exp : Option Int
  secret : String
  wellFormed : Bool
deriving DecidableEq

/-- The errors `jose.jwt.decode` signals; all are subclasses of
`JWTError` and are caught by `verify_token`. -/
inductive JoseError where
  | invalidSignature
  | malformed
  | expiredSignature
deriving DecidableEq

/-- Modelled from the spec: `jose.jwt.decode` is a third-party dependency
whose implementation is not in the repository.  It validates the signature
against the supplied secret, rejects malformed payloads, and validates the
`exp` claim against the current time; per the spec, verification fails once
the current time is at or after `expiresAt`, and a payload without an `exp`
claim skips expiry validation (the behaviour claim C10 describes). -/
def jwtDecode (now : Int) (token : PyToken) (secret : String) :
    Except JoseError (Option String × Option Int) :=
  if token.secret ≠ secret then .error .invalidSignature
  else if token.wellFormed = false then .error .malformed
  else
    match token.exp with
    | some e => if now ≥ e then .error .expiredSignature else .ok (token.sub, token.exp)
    | none => .ok (token.sub, token.exp)

/-- The claims `verify_token` returns on success (`auth.py` `TokenData`,
with both fields populated as on `auth.py` line 138). -/
structure TokenData where
  username : String
  exp : Int
deriving DecidableEq

/-- Python runtime errors that are not `JWTError` and hence escape
`verify_token`'s `except` clause. -/
inductive PyRuntimeError where
  | typeError
deriving DecidableEq

/-- `datetime.fromtimestamp` as used on `auth.py` line 133: converts an
integer timestamp to an instant, and raises `TypeError` on `None`. -/
def fromtimestamp : Option Int → Except PyRuntimeError Int
  | some ts => .ok ts
  | none => .error .typeError

/-- `auth.py` `create_access_token`, evaluated at issue time `now` with the
`sub` claim from its `data` argument. -/
def create_access_token (now : Int) (sub : String)
    (expires_delta : Option Int) : PyToken :=
  let expire : Int :=
    match expires_delta with
    | some d => now + d
    | none => now + ACCESS_TOKEN_EXPIRE_HOURS * 3600
  { sub := some sub, exp := some expire, secret := SECRET_KEY, wellFormed := true }

/-- `auth.py` `verify_token`, evaluated at time `now`.  A `JWTError` from
`jwt.decode` is caught and mapped to `none`; a `TypeError` raised by
`datetime.fromtimestamp` is not caught and escapes as `.error`. -/
def verify_token (now : Int) (token : PyToken) :
    Except PyRuntimeError (Option TokenData) :=
  match jwtDecode now token SECRET_KEY with
  | .error _ => .ok none
  | .ok (username, expClaim) =>
    match fromtimestamp expClaim with
    | .error e => .error e
    | .ok exp =>
      match username with
      | none => .ok none
      | some u => .ok (some { username := u, exp := exp })

/-- Claim C3: for a token carrying an `exp` claim, `verify_token` returns no
claims exactly when the signature is invalid, the payload is malformed, the
subject is missing, or the verification time is at or after the expiry; in
particular verification exactly at the expiry instant fails, and in all
remaining cases the claims are returned. -/
theorem verify_token_failure_conditions (tok : PyToken) (now e : Int)
    (h : tok.exp = some e) :
    (verify_token now tok = .ok none ↔
      (tok.secret ≠ SECRET_KEY ∨ tok.wellFormed = false ∨
        tok.sub = none ∨ now ≥ e)) ∧
    verify_token e tok = .ok none ∧
    (∀ u, tok.sub = some u → tok.secret = SECRET_KEY → tok.wellFormed = true →
      now < e → verify_token now tok = .ok (some { username := u, exp := e })) := by
  obtain ⟨sub, exp, secret, wf⟩ := tok
  simp only [PyToken.exp] at h
  subst h
  refine ⟨?_, ?_, ?_⟩
  · by_cases hs : secret = SECRET_KEY
    · cases wf
      · simp [verify_token, jwtDecode, hs]
      · by_cases he : now ≥ e
        · simp [verify_token, jwtDecode, hs, he]
        · cases sub <;> simp [verify_token, jwtDecode, fromtimestamp, hs, he]
    · simp [verify_token, jwtDecode, hs]
  · by_cases hs : secret = SECRET_KEY
    · cases wf <;> simp [verify_token, jwtDecode, hs]
    · simp [verify_token, jwtDecode, hs]
  · rintro u rfl rfl rfl hlt
    simp [verify_token, jwtDecode, fromtimestamp, not_le.mpr hlt]

/-- Witness for C3 at a concrete valid token: before expiry it verifies, at
the expiry instant it fails. -/
theorem verify_token_failure_conditions_witness :
    (verify_token 0 ⟨some "abc", some 10, SECRET_KEY, true⟩ =
      .ok (some { username := "abc", exp := 10 })) ∧
    verify_token 10 ⟨some "abc", some 10, SECRET_KEY, true⟩ = .ok none := by
  have h := verify_token_failure_conditions ⟨some "abc", some 10, SECRET_KEY, true⟩ 0 10 rfl
  exact ⟨h.2.2 "abc" rfl rfl rfl (by decide), h.2.1⟩

/-- Claim C4: authenticating a registered pair yields the looked-up
username; a token issued for that subject at `now` with ttl `ttl` verifies
before expiry to the same subject with decoded expiry `now + ttl`; and with
no ttl supplied the expiry defaults to the configured number of hours
(default 8). -/
theorem token_roundtrip (bc : String → String → Bool) (u p : String)
    (usr : User) (h : authenticate_user bc u p = some usr)
    (now ttl vt : Int) (hvt : vt < now + ttl) :
    usr.username = u ∧
    verify_token vt (create_access_token now usr.username (some ttl)) =
      .ok (some { username := u, exp := now + ttl }) ∧
    (create_access_token now u none).exp =
      some (now + ACCESS_TOKEN_EXPIRE_HOURS * 3600) ∧
    ACCESS_TOKEN_EXPIRE_HOURS = 8 := by
  have huser : usr.username = u := by
    by_cases h1 : u = "abc"
    · subst h1
      simp only [authenticate_user, get_user, if_pos rfl] at h
      by_cases hv : verify_password bc p abcUser.password_hash
      · simp [hv] at h
        rw [← h]
        rfl
      · simp [hv] at h
    · by_cases h2 : u = "admin"
      · subst h2
        simp only [authenticate_user, get_user, if_neg h1, if_pos rfl] at h
        by_cases hv : verify_password bc p adminUser.password_hash
        · simp [hv] at h
          rw [← h]
          rfl
        · simp [hv] at h
      · simp [authenticate_user, get_user, h1, h2] at h
  refine ⟨huser, ?_, rfl, rfl⟩
  rw [huser]
  simp [verify_token, jwtDecode, create_access_token, fromtimestamp, not_le.mpr hvt]

/-- Witness for C4: the registered pair `("abc", sentinel)` round-trips
through issue and verify. -/
theorem token_roundtrip_witness :
    abcUser.username = "abc" ∧
    verify_token 50 (create_access_token 0 abcUser.username (some 100)) =
      .ok (some { username := "abc", exp := 100 }) ∧
    (create_access_token 0 "abc" none).exp =
      some (0 + ACCESS_TOKEN_EXPIRE_HOURS * 3600) ∧
    ACCESS_TOKEN_EXPIRE_HOURS = 8 := by
  have h := token_roundtrip (fun _ _ => false) "abc" sentinelHash abcUser
    (by simp [authenticate_user, get_user, verify_password, abcUser])
    0 100 50 (by decide)
  simpa using h

/-- Claim C10: a token correctly signed with the configured secret but
lacking an `exp` claim makes `verify_token` raise an uncaught `TypeError`
(`datetime.fromtimestamp(None)`) instead of returning `None`. -/
theorem verify_token_missing_exp_uncaught (now : Int) :
    verify_token now ⟨some "abc", none, SECRET_KEY, true⟩ =
      .error .typeError := by
  simp [verify_token, jwtDecode, fromtimestamp]

/-! ## main.py: pagination validation on the list endpoints

Each handler's declared query parameters are validated by the framework
before the handler body (and hence any query) runs: a declared
`page: Optional[int] = Query(1, ge=1)` rejects supplied values `< 1`, and a
declared `limit: Optional[int] = Query(_, ge=1, le=100)` rejects values
outside `[1,100]`.  Query parameters an endpoint does not declare are
ignored.  `GET /api/customers` (`main.py` lines 188-195) declares no `page`
or `limit` parameter; the other eight list endpoints declare both. -/

/-- A list endpoint of `main.py`: its route and whether it declares the
`page`/`limit` query parameters (with `ge=1` resp. `ge=1, le=100`). -/
structure ListEndpoint where
  route : String
  declaresPagination : Bool
deriving DecidableEq

/-- The nine list endpoints of `main.py`, with their declared pagination
parameters read off the handler signatures. -/
def listEndpoints : List ListEndpoint :=
  [⟨"/api/customers", false⟩,
   ⟨"/api/cargoCategory", true⟩,
   ⟨"/api/cargoType", true⟩,
   ⟨"/api/handlingMethodList", true⟩,
   ⟨"/api/class", true⟩,
   ⟨"/api/shipDetails", true⟩,
   ⟨"/api/bulkGateVolumesCB", true⟩,
   ⟨"/api/bulkQuayVolumesCB", true⟩,
   ⟨"/api/contQuayVolumesCB", true⟩]

/-- Framework validation of the supplied `page`/`limit` query-string values
against the endpoint's declared constraints, run before the handler body:
`true` means the request reaches the handler (and its query).  An endpoint
that declares no pagination parameters ignores the supplied values. -/
def paginationAccepted (e : ListEndpoint) (page limit : Option Int) : Bool :=
  if e.declaresPagination then
    (match page with
     | none => true
     | some p => decide (1 ≤ p)) &&
    (match limit with
     | none => true
     | some l => decide (1 ≤ l ∧ l ≤ 100))
  else true

/-- Counterexample to claim C5 as stated: `GET /api/customers` is one of the
nine list endpoints, yet a request with `limit = 200` (outside `[1,100]`) is
not rejected, because that handler declares no `limit` parameter and the
framework ignores undeclared query parameters. -/
theorem customers_limit_not_validated :
    (⟨"/api/customers", false⟩ : ListEndpoint) ∈ listEndpoints ∧
    paginationAccepted ⟨"/api/customers", false⟩ (some 1) (some 200) = true := by
  decide

/-- Amended claim C5: on the eight list endpoints that declare pagination
parameters (all except `GET /api/customers`), a supplied `limit` outside
`[1,100]` or `page < 1` is rejected by validation before any query runs. -/
theorem pagination_validated_on_paginated_endpoints
    (e : ListEndpoint) (_he : e ∈ listEndpoints)
    (hp : e.declaresPagination = true) (page limit : Option Int)
    (hbad : (∃ p, page = some p ∧ p < 1) ∨
      (∃ l, limit = some l ∧ (l < 1 ∨ 100 < l))) :
    paginationAccepted e page limit = false := by
  rcases hbad with ⟨p, rfl, hp1⟩ | ⟨l, rfl, hl⟩
  · simp [paginationAccepted, hp, not_le.mpr hp1]
  · have hfail : (decide (1 ≤ l ∧ l ≤ 100)) = false := by
      rcases hl with hl | hl
      · simp [not_le.mpr hl]
      · simp [not_le.mpr hl]
    simp [paginationAccepted, hp, hfail]

/-- Witness for the amended C5: `/api/cargoCategory` with `limit = 200`
is rejected. -/
theorem pagination_validated_witness :
    paginationAccepted ⟨"/api/cargoCategory", true⟩ none (some 200) = false :=
  pagination_validated_on_paginated_endpoints ⟨"/api/cargoCategory", true⟩
    (by decide) rfl none (some 200) (Or.inr ⟨200, rfl, Or.inr (by decide)⟩)

/-! ## main.py: the list-response envelope

Every list handler ends with the same pattern (e.g. `get_customers`,
`main.py` lines 295-299, and `get_cargo_categories`, lines 510-514, with
identical message literals in all nine handlers): on success it returns
`code="1"` with the success message when the mapped data list is non-empty
and the no-data message when it is empty; on an unexpected exception it
raises HTTP 500 with detail `code="0"`. -/

/-- The `{code, message, data}` body of a successful list response. -/
structure ListEnvelope (α : Type) where
  code : String
  message : String
  data : List α
deriving DecidableEq

/-- The observable outcome of a list handler: a 200 envelope or a 500 error
detail `(code, message)`. -/
inductive ListOutcome (α : Type) where
  | ok (env : ListEnvelope α)
  | serverError (code message : String)
deriving DecidableEq

/-- The shared tail of every list handler in `main.py`: a successful query
result is wrapped in a `code="1"` envelope whose message depends on
emptiness of the mapped data; a raised exception `e` becomes an HTTP 500
with detail `code="0"` and the raw exception text appended. -/
def listHandlerOutcome {α : Type} (result : Except String (List α)) :
    ListOutcome α :=
  match result with
  | .ok rows =>
    .ok { code := "1"
          message := if rows.isEmpty then "Không có dữ liệu" else "Lấy dữ liệu thành công"
          data := rows }
  | .error e => .serverError "0" ("Lỗi lấy dữ liệu: " ++ e)

/-- The `code` field an HTTP client observes for a list outcome. -/
def ListOutcome.codeOf {α : Type} : ListOutcome α → String
  | .ok env => env.code
  | .serverError c _ => c

/-- Claim C9: every successful query execution produces `code="1"` — with
the success message when data is non-empty and the no-data message when it
is empty — so an empty result set is never surfaced as an error, and every
list outcome carries `code ∈ {"0","1"}`. -/
theorem list_envelope_codes {α : Type} (result : Except String (List α)) :
    (∀ rows, result = .ok rows →
      listHandlerOutcome result =
        .ok { code := "1"
              message := if rows.isEmpty then "Không có dữ liệu"
                else "Lấy dữ liệu thành công"
              data := rows }) ∧
    (result = .ok [] → (listHandlerOutcome result).codeOf = "1") ∧
    ((listHandlerOutcome result).codeOf = "0" ∨
      (listHandlerOutcome result).codeOf = "1") := by
  refine ⟨?_, ?_, ?_⟩
  · rintro rows rfl
    rfl
  · rintro rfl
    rfl
  · cases result <;> simp [listHandlerOutcome, ListOutcome.codeOf]

/-- Witness for C9 at concrete outcomes: a non-empty result, an empty
result, and a failed execution. -/
theorem list_envelope_codes_witness :
    listHandlerOutcome (.ok [1, 2]) =
      .ok { code := "1", message := "Lấy dữ liệu thành công", data := [1, 2] } ∧
    (listHandlerOutcome (α := Nat) (.ok [])).codeOf = "1" ∧
    ((listHandlerOutcome (α := Nat) (.error "boom")).codeOf = "0" ∨
      (listHandlerOutcome (α := Nat) (.error "boom")).codeOf = "1") := by
  refine ⟨?_, (list_envelope_codes (.ok [])).2.1 rfl, (list_envelope_codes _).2.2⟩
  have h := (list_envelope_codes (.ok [1, 2])).1 [1, 2] rfl
  simpa using h

/-! ## main.py: cargo-type lookup by id (`get_cargo_type_by_id`)

The handler first tries `int(cargo_type_id)`; on success the query filters
on the numeric grouping key `cargoGroupId`, on `ValueError` it filters on
the string `cargoGroupCode` (`main.py` lines 738-769).  Rows of the
`dbo.vwCargo` view are modelled with the columns the two `WHERE` clauses
mention; the `WHERE` clause (which alone decides matching) is modelled as a
filter over the view's rows, with SQL `NULL` as `none` (a `NULL` column
never satisfies an equality predicate). -/

/-- A row of `dbo.vwCargo` restricted to the columns the cargo-type lookup
predicates mention; `none` is SQL `NULL`. -/
structure CargoRow where
  cargoGroupId : Option Int
  cargoGroupCode : Option String
  cargoGroupName : Option String
  rowDeleted : Option Int
deriving DecidableEq

/-- The numeric value of a decimal digit character, `none` otherwise. -/
def digitVal (c : Char) : Option Nat :=
  if '0' ≤ c ∧ c ≤ '9' then some (c.toNat - '0'.toNat) else none

/-- A non-empty run of decimal digits read as a number, `none` otherwise. -/
def parseDigits : List Char → Option Nat
  | [] => none
  | c :: cs =>
    (digitVal c).bind fun d =>
      cs.foldl (fun acc ch => acc.bind fun a => (digitVal ch).map fun dv =>
        a * 10 + dv) (some d)

/-- Model of Python `int(s)` for the id-dispatch: an optional sign followed
by decimal digits parses, anything else raises `ValueError` (`none`). -/
def pyIntParse (s : String) : Option Int :=
  match s.data with
  | '-' :: cs => (parseDigits cs).map fun n => -(n : Int)
  | '+' :: cs => (parseDigits cs).map fun n => (n : Int)
  | cs => (parseDigits cs).map fun n => (n : Int)

/-- The rows satisfying `get_cargo_type_by_id`'s `WHERE` clause: on an
integer-parseable id, `cargoGroupId = ? AND rowDeleted = 0`; otherwise
`cargoGroupCode = ? AND rowDeleted = 0`. -/
def cargoTypeLookupRows (view : List CargoRow) (cargo_type_id : String) :
    List CargoRow :=
  match pyIntParse cargo_type_id with
  | some n =>
    view.filter (fun r => r.cargoGroupId == some n && r.rowDeleted == some 0)
  | none =>
    view.filter (fun r =>
      r.cargoGroupCode == some cargo_type_id && r.rowDeleted == some 0)

/-- Claim C7: when the id parses as an integer the lookup matches rows by
the numeric grouping key (and only by it — the code string plays no role);
otherwise it matches by the grouping code string. -/
theorem cargo_type_lookup_dispatch (view : List CargoRow) (id : String) :
    (∀ n, pyIntParse id = some n →
      ∀ r, r ∈ cargoTypeLookupRows view id ↔
        (r ∈ view ∧ r.cargoGroupId = some n ∧ r.rowDeleted = some 0)) ∧
    (pyIntParse id = none →
      ∀ r, r ∈ cargoTypeLookupRows view id ↔
        (r ∈ view ∧ r.cargoGroupCode = some id ∧ r.rowDeleted = some 0)) := by
  constructor
  · intro n hn r
    simp [cargoTypeLookupRows, hn, List.mem_filter, and_assoc]
  · intro hn r
    simp [cargoTypeLookupRows, hn, List.mem_filter, and_assoc]

/-- Witness for C7 on a view where both paths could match the id `"12"`:
the row whose numeric key is 12 is returned, the row whose code string is
`"12"` (but whose numeric key is 7) is not. -/
theorem cargo_type_lookup_dispatch_witness :
    (⟨some 12, some "X", some "A", some 0⟩ : CargoRow) ∈
      cargoTypeLookupRows
        [⟨some 12, some "X", some "A", some 0⟩,
         ⟨some 7, some "12", some "B", some 0⟩] "12" ∧
    (⟨some 7, some "12", some "B", some 0⟩ : CargoRow) ∉
      cargoTypeLookupRows
        [⟨some 12, some "X", some "A", some 0⟩,
         ⟨some 7, some "12", some "B", some 0⟩] "12" := by
  have h := cargo_type_lookup_dispatch
    [⟨some 12, some "X", some "A", some 0⟩,
     ⟨some 7, some "12", some "B", some 0⟩] "12"
  constructor
  · exact (h.1 12 (by decide) _).mpr (by decide)
  · intro hmem
    have := (h.1 12 (by decide) _).mp hmem
    simp at this

/-! ## main.py: per-handler WHERE clauses and the active-row predicates

Each handler builds its SQL by string concatenation, starting from a base
query and appending `" AND <clause>"` pieces; the query's `WHERE` clause is
therefore a sequence of conjuncts.  The builders below record, per handler,
that sequence of conjuncts in source order, with each conjunct's SQL text
verbatim.  A Python `if filterArg:` guard is truthiness, so an absent value
and an empty string (or zero) alike append nothing. -/

/-- Python truthiness of an optional string argument (`if startDate:`). -/
def optStrGiven : Option String → Bool
  | none => false
  | some s => s != ""

/-- Python truthiness of an optional integer argument (`if cargoTypeId:`). -/
def optIntGiven : Option Int → Bool
  | none => false
  | some n => n != 0

/-- A conditionally appended `AND` conjunct. -/
def optClause (b : Bool) (s : String) : List String :=
  if b then [s] else []

/-- `get_customers` (`dbo.Partner`) WHERE conjuncts. -/
def customersListWhere (startDate endDate customerTaxCode : Option String) :
    List String :=
  ["1=1"] ++
    optClause (optStrGiven startDate) "CAST(updateTime AS DATE) >= ?" ++
    optClause (optStrGiven endDate) "CAST(updateTime AS DATE) <= ?" ++
    optClause (optStrGiven customerTaxCode) "partnerTaxCode = ?" ++
    ["rowDeleted = 0"]

/-- `get_customer_by_id` (`dbo.Partner`) WHERE conjuncts. -/
def customerByIdWhere : List String :=
  ["partnerCode = ?", "rowDeleted = 0"]

/-- `get_cargo_categories` (`dbo.vwCargo`) WHERE conjuncts. -/
def cargoCategoryListWhere (cargoTypeId : Option Int) : List String :=
  ["1=1"] ++
    optClause (optIntGiven cargoTypeId) "cargoGroupId = ?" ++
    ["rowDeleted = 0"]

/-- `get_cargo_by_id` (`dbo.vwCargo`) WHERE conjuncts. -/
def cargoByIdWhere : List String :=
  ["cargoId = ?", "rowDeleted = 0"]

/-- `get_cargo_types` (`dbo.vwCargo`) WHERE conjuncts. -/
def cargoTypeListWhere : List String :=
  ["rowDeleted = 0", "cargoGroupId IS NOT NULL", "cargoGroupName IS NOT NULL"]

/-- `get_cargo_type_by_id` (`dbo.vwCargo`) WHERE conjuncts: the matching
conjunct depends on the id's lexical shape (claim C7). -/
def cargoTypeByIdWhere (cargo_type_id : String) : List String :=
  match pyIntParse cargo_type_id with
  | some _ => ["cargoGroupId = ?", "rowDeleted = 0"]
  | none => ["cargoGroupCode = ?", "rowDeleted = 0"]

/-- `get_handling_methods` (`dbo.vwTallyShiftAll`) WHERE conjuncts. -/
def handlingMethodListWhere : List String :=
  ["rowDeleted IS NULL", "jobMethodCode IS NOT NULL", "jobMethodName IS NOT NULL"]

/-- `get_handling_method_by_id` (`dbo.vwTallyShiftAll`) WHERE conjuncts. -/
def handlingMethodByIdWhere : List String :=
  ["rowDeleted IS NULL", "jobMethodCode = ?"]

/-- `get_classes` (`dbo.vwTallyShiftAll`) WHERE conjuncts. -/
def classListWhere : List String :=
  ["rowDeleted IS NULL", "cargoDirectCode IS NOT NULL", "cargoDirectName IS NOT NULL"]

/-- `get_class_by_id` (`dbo.vwTallyShiftAll`) WHERE conjuncts. -/
def classByIdWhere : List String :=
  ["rowDeleted IS NULL", "cargoDirectCode = ?"]

/-- `get_ships` (`dbo.Vessel`) WHERE conjuncts. -/
def shipListWhere : List String :=
  ["rowDeleted = 0"]

/-- `get_ship_by_imo` (`dbo.Vessel`) WHERE conjuncts. -/
def shipByImoWhere : List String :=
  ["rowDeleted = 0", "numberIMO = ?"]

/-- `get_bulk_gate_volumes` (`dbo.vwTallyShiftAll`, alias `t`) WHERE
conjuncts. -/
def bulkGateVolumesWhere
    (startDate endDate companyId handlingMethodId : Option String) :
    List String :=
  ["t.rowDeleted IS NULL", "t.weightNetSum > 0",
   "(t.vesselCode LIKE ? OR t.vesselCode LIKE ?)"] ++
    optClause (optStrGiven startDate) "t.shiftDate >= ?" ++
    optClause (optStrGiven endDate) "t.shiftDate <= ?" ++
    optClause (optStrGiven companyId) "t.consigneeId = ?" ++
    optClause (optStrGiven handlingMethodId) "t.jobMethodId = ?"

/-- `get_bulk_quay_volumes` (`dbo.vwTallyShiftAll`, alias `t`) WHERE
conjuncts. -/
def bulkQuayVolumesWhere
    (startDate endDate companyId shipId handlingMethodId : Option String) :
    List String :=
  ["t.rowDeleted IS NULL", "t.weightNetSum > 0", "t.jobMethodCode LIKE ?",
   "(c.cargoGroupCode IS NULL OR c.cargoGroupCode <> 'Container')"] ++
    optClause (optStrGiven startDate) "t.shiftDate >= ?" ++
    optClause (optStrGiven endDate) "t.shiftDate <= ?" ++
    optClause (optStrGiven companyId) "t.consigneeId = ?" ++
    optClause (optStrGiven shipId) "t.vesselId = ?" ++
    optClause (optStrGiven handlingMethodId) "t.jobMethodId = ?"

/-- `get_container_quay_volumes` (`dbo.vwTallyShiftAll`, alias `t`) WHERE
conjuncts. -/
def contQuayVolumesWhere
    (startDate endDate companyId shipId handlingMethodId : Option String) :
    List String :=
  ["t.rowDeleted IS NULL", "t.weightNetSum > 0", "t.jobMethodCode LIKE ?",
   "c.cargoGroupCode = 'Hàng Container'"] ++
    optClause (optStrGiven startDate) "t.shiftDate >= ?" ++
    optClause (optStrGiven endDate) "t.shiftDate <= ?" ++
    optClause (optStrGiven companyId) "t.consigneeId = ?" ++
    optClause (optStrGiven shipId) "t.vesselId = ?" ++
    optClause (optStrGiven handlingMethodId) "t.jobMethodId = ?"

/-- A WHERE-conjunct list keeps the zero convention: it contains
`rowDeleted = 0` and neither form of the null convention. -/
abbrev keepsZeroConvention (cs : List String) : Prop :=
  "rowDeleted = 0" ∈ cs ∧ "rowDeleted IS NULL" ∉ cs ∧
    "t.rowDeleted IS NULL" ∉ cs

/-- A WHERE-conjunct list keeps the null convention (bare or under the `t`
alias): it contains the `IS NULL` predicate and neither form of the zero
convention. -/
abbrev keepsNullConvention (cs : List String) : Prop :=
  ("rowDeleted IS NULL" ∈ cs ∨ "t.rowDeleted IS NULL" ∈ cs) ∧
    "rowDeleted = 0" ∉ cs ∧ "t.rowDeleted = 0" ∉ cs

/-- Claim C8: for every handler and every combination of filter inputs, the
generated WHERE clause contains the resource's fixed active-row predicate —
`rowDeleted = 0` for the handlers backed by `dbo.Partner`, `dbo.vwCargo`
and `dbo.Vessel`, `rowDeleted IS NULL` for the handlers backed by
`dbo.vwTallyShiftAll` — and never the other convention. -/
theorem active_row_predicates
    (sd ed tc : Option String) (ctid : Option Int) (cti : String)
    (g1 g2 g3 g4 : Option String) (q1 q2 q3 q4 q5 : Option String)
    (k1 k2 k3 k4 k5 : Option String) :
    keepsZeroConvention (customersListWhere sd ed tc) ∧
    keepsZeroConvention customerByIdWhere ∧
    keepsZeroConvention (cargoCategoryListWhere ctid) ∧
    keepsZeroConvention cargoByIdWhere ∧
    keepsZeroConvention cargoTypeListWhere ∧
    keepsZeroConvention (cargoTypeByIdWhere cti) ∧
    keepsZeroConvention shipListWhere ∧
    keepsZeroConvention shipByImoWhere ∧
    keepsNullConvention handlingMethodListWhere ∧
    keepsNullConvention handlingMethodByIdWhere ∧
    keepsNullConvention classListWhere ∧
    keepsNullConvention classByIdWhere ∧
    keepsNullConvention (bulkGateVolumesWhere g1 g2 g3 g4) ∧
    keepsNullConvention (bulkQuayVolumesWhere q1 q2 q3 q4 q5) ∧
    keepsNullConvention (contQuayVolumesWhere k1 k2 k3 k4 k5) := by
  refine ⟨?_, by decide, ?_, by decide, by decide, ?_, by decide, by decide,
    by decide, by decide, by decide, by decide, ?_, ?_, ?_⟩
  · cases h1 : optStrGiven sd <;> cases h2 : optStrGiven ed <;>
      cases h3 : optStrGiven tc <;>
      simp only [customersListWhere, keepsZeroConvention, optClause,
        h1, h2, h3] <;> decide
  · cases h1 : optIntGiven ctid <;>
      simp only [cargoCategoryListWhere, keepsZeroConvention, optClause,
        h1] <;> decide
  · cases h : pyIntParse cti <;>
      simp only [cargoTypeByIdWhere, keepsZeroConvention, h] <;> decide
  · cases h1 : optStrGiven g1 <;> cases h2 : optStrGiven g2 <;>
      cases h3 : optStrGiven g3 <;> cases h4 : optStrGiven g4 <;>
      simp only [bulkGateVolumesWhere, keepsNullConvention, optClause,
        h1, h2, h3, h4] <;> decide
  · cases h1 : optStrGiven q1 <;> cases h2 : optStrGiven q2 <;>
      cases h3 : optStrGiven q3 <;> cases h4 : optStrGiven q4 <;>
      cases h5 : optStrGiven q5 <;>
      simp only [bulkQuayVolumesWhere, keepsNullConvention, optClause,
        h1, h2, h3, h4, h5] <;> decide
  · cases h1 : optStrGiven k1 <;> cases h2 : optStrGiven k2 <;>
      cases h3 : optStrGiven k3 <;> cases h4 : optStrGiven k4 <;>
      cases h5 : optStrGiven k5 <;>
      simp only [contQuayVolumesWhere, keepsNullConvention, optClause,
        h1, h2, h3, h4, h5] <;> decide

/-! ## database.py row conversion and main.py ship timestamp rendering

`DatabaseConnection.execute_query` (`database.py` lines 102-111) converts
every fetched value that has an `isoformat` attribute — i.e. every
`datetime` column value — into its `isoformat()` string before the handler
sees the row.  The ship handlers (`get_ships`, `main.py` lines 1228-1229,
and `get_ship_by_imo`, lines 1324-1325) render `createdDate` and
`modifiedDate` with
`v.strftime("%Y-%m-%dT%H:%M:%S.%f")[:-3] + "Z" if v and hasattr(v, "strftime") else str(v) if v else None`. -/

/-- A naive `datetime.datetime` value. -/
structure PyDatetime where
  year : Nat
  month : Nat
  day : Nat
  hour : Nat
  minute : Nat
  second : Nat
  microsecond : Nat
deriving DecidableEq

/-- Zero-padded decimal rendering of width `w`. -/
def padZeroes (w : Nat) (n : Nat) : String :=
  let s := toString n
  String.mk (List.replicate (w - s.length) '0') ++ s

/-- `datetime.isoformat()`: `YYYY-MM-DDTHH:MM:SS`, with `.ffffff` appended
only when the microsecond field is non-zero. -/
def pyIsoformat (d : PyDatetime) : String :=
  padZeroes 4 d.year ++ "-" ++ padZeroes 2 d.month ++ "-" ++ padZeroes 2 d.day ++
    "T" ++ padZeroes 2 d.hour ++ ":" ++ padZeroes 2 d.minute ++ ":" ++
    padZeroes 2 d.second ++
    (if d.microsecond = 0 then "" else "." ++ padZeroes 6 d.microsecond)

/-- `str(datetime)`: like `isoformat()` but with a space separator. -/
def pyDatetimeStr (d : PyDatetime) : String :=
  padZeroes 4 d.year ++ "-" ++ padZeroes 2 d.month ++ "-" ++ padZeroes 2 d.day ++
    " " ++ padZeroes 2 d.hour ++ ":" ++ padZeroes 2 d.minute ++ ":" ++
    padZeroes 2 d.second ++
    (if d.microsecond = 0 then "" else "." ++ padZeroes 6 d.microsecond)

/-- `d.strftime("%Y-%m-%dT%H:%M:%S.%f")`: `%f` is always six digits. -/
def pyStrftimeShip (d : PyDatetime) : String :=
  padZeroes 4 d.year ++ "-" ++ padZeroes 2 d.month ++ "-" ++ padZeroes 2 d.day ++
    "T" ++ padZeroes 2 d.hour ++ ":" ++ padZeroes 2 d.minute ++ ":" ++
    padZeroes 2 d.second ++ "." ++ padZeroes 6 d.microsecond

/-- The ship handlers' strftime branch:
`strftime("%Y-%m-%dT%H:%M:%S.%f")[:-3] + "Z"` (trim microseconds to
milliseconds, append the literal Z). -/
def shipTimestampZ (d : PyDatetime) : String :=
  (pyStrftimeShip d).dropRight 3 ++ "Z"

/-- A value of a fetched row cell: a string, an integer, a datetime, or SQL
`NULL` (Python `None`; also what `dict.get` yields for an absent column). -/
inductive SqlValue where
  | str (s : String)
  | intV (n : Int)
  | dt (d : PyDatetime)
  | null
deriving DecidableEq

/-- `database.py` `execute_query` per-cell conversion: a value with an
`isoformat` attribute (a datetime) becomes its `isoformat()` string; every
other value passes through. -/
def convertValue : SqlValue → SqlValue
  | .dt d => .str (pyIsoformat d)
  | v => v

/-- `execute_query` row conversion applied over the fetched row. -/
def convertRow (row : List (String × SqlValue)) : List (String × SqlValue) :=
  row.map fun kv => (kv.1, convertValue kv.2)

/-- Python truthiness of a cell value (`if row.get(...)`). -/
def pyTruthy : SqlValue → Bool
  | .str s => s != ""
  | .intV n => n != 0
  | .dt _ => true
  | .null => false

/-- `str(value)` for a cell value. -/
def pyStrOf : SqlValue → String
  | .str s => s
  | .intV n => toString n
  | .dt d => pyDatetimeStr d
  | .null => "None"

/-- `row.get(key)`: the cell value, or `None` when the column is absent. -/
def rowGet (row : List (String × SqlValue)) (key : String) : SqlValue :=
  match row.lookup key with
  | some v => v
  | none => .null

/-- The ship handlers' date rendering expression: the millisecond-Z
strftime branch for truthy values with a `strftime` attribute (exactly the
datetime values), `str(v)` for other truthy values, `None` otherwise. -/
def renderShipDate : SqlValue → Option String
  | .dt d => some (shipTimestampZ d)
  | v => if pyTruthy v then some (pyStrOf v) else none

/-- `createdDate` of a ship DTO built from row `row`. -/
def shipCreatedDate (row : List (String × SqlValue)) : Option String :=
  renderShipDate (rowGet row "createTime")

/-- Whether a string ends in the literal character `Z`. -/
def lastIsZ (s : String) : Bool :=
  s.data.getLast? == some 'Z'

/-- An `isoformat()` string is never empty (it starts with the padded year
and the date separators). -/
theorem pyIsoformat_ne_empty (d : PyDatetime) : pyIsoformat d ≠ "" := by
  intro h
  have hd := congrArg String.data h
  simp [pyIsoformat, String.data_append] at hd

/-- Counterexample to claim C6 as stated: a ship row whose `createTime`
column is a datetime, once passed through `execute_query`'s conversion, is
rendered as the plain `isoformat()` string — not a millisecond-precision
string with a `"Z"` suffix — because the conversion has already replaced
the datetime by a string, which has no `strftime` attribute. -/
theorem ship_created_date_not_Z :
    shipCreatedDate (convertRow [("createTime", .dt ⟨2024, 1, 2, 3, 4, 5, 123456⟩)]) =
      some "2024-01-02T03:04:05.123456" ∧
    ∀ s, shipCreatedDate (convertRow [("createTime", .dt ⟨2024, 1, 2, 3, 4, 5, 123456⟩)]) =
      some s → lastIsZ s = false := by
  constructor
  · rfl
  · intro s hs
    have : s = "2024-01-02T03:04:05.123456" := by
      have h : some "2024-01-02T03:04:05.123456" = some s := by
        rw [← hs]
        rfl
      exact (Option.some.inj h).symm
    subst this
    decide

/-- Amended claim C6: the millisecond-precision `"Z"`-suffixed formatting
applies only to raw datetime values, and for those it does produce a string
ending in `Z`; but rows produced by the query-execution collaborator carry
`isoformat()` strings instead of datetimes, so the ship handlers render
`createdDate`/`modifiedDate` through the `str(v)` fallback as the plain ISO
string. -/
theorem ship_created_date_after_conversion (d : PyDatetime) :
    shipCreatedDate (convertRow [("createTime", .dt d)]) =
      some (pyIsoformat d) ∧
    renderShipDate (.dt d) = some (shipTimestampZ d) ∧
    lastIsZ (shipTimestampZ d) = true := by
  refine ⟨?_, rfl, ?_⟩
  · show renderShipDate (rowGet [("createTime", .str (pyIsoformat d))] "createTime") = _
    show renderShipDate (.str (pyIsoformat d)) = _
    have ht : pyTruthy (.str (pyIsoformat d)) = true := by
      simp [pyTruthy, pyIsoformat_ne_empty d]
    simp [renderShipDate, ht, pyStrOf]
  · simp [lastIsZ, shipTimestampZ, String.data_append]

end BigDataAPI
